import Mathlib

set_option maxHeartbeats 1000000

/-
Shallow embedding of src/main.py (CurioPulse).

External effects are modelled as explicit parameters:
the generative backend is a function from (model name, prompt) to an
outcome (raised error message, or returned text), the model listing is a
value of an outcome type, feed parsing results are given as lists of
entries, and random.sample is an oracle parameter. Machine-level string
operations (Python str.strip, regex \d+, the anchored item-label regex,
substring tests) are embedded as executable functions on lists of
characters.
-/

/-- Python whitespace class as used by str.strip and the regex \s
(ASCII part; the inputs of this development are ASCII or CJK text
without exotic whitespace). -/
def isSpaceChar (c : Char) : Bool :=
  c = ' ' || c = '\t' || c = '\n' || c = '\r' || c = '\x0b' || c = '\x0c'

/-- Python regex \d on the ASCII digits (the decimal digits occurring in
the AI responses of this program). -/
def isDigitChar (c : Char) : Bool :=
  '0' ≤ c && c ≤ '9'

/-- Python str.strip on a character list: drop whitespace from both ends. -/
def pyStripList (cs : List Char) : List Char :=
  ((cs.dropWhile isSpaceChar).reverse.dropWhile isSpaceChar).reverse

/-- Python str.strip. -/
def pyStrip (s : String) : String :=
  String.mk (pyStripList s.toList)

/-- Does the second list start with the first one. -/
def leadMatch : List Char → List Char → Bool
  | [], _ => true
  | _ :: _, [] => false
  | a :: as, b :: bs => a = b && leadMatch as bs

/-- Python substring test (needle in haystack). -/
def hasSub (needle : List Char) : List Char → Bool
  | [] => needle.isEmpty
  | c :: rest => leadMatch needle (c :: rest) || hasSub needle rest

/-- Outcome of one call to client.models.generate_content: either an
exception with its message string, or a returned response text.
A response whose text attribute is missing or empty is modelled as
returning the empty string (both are falsy in the source code test
at src/main.py line 68). -/
inductive CallOutcome where
  | raises (msg : String)
  | returns (text : String)
deriving DecidableEq, Repr

/-- A generation call outcome that the loop in generate_with_fallback
skips over: a raised exception, or a returned falsy (empty) text. -/
def isFailure : CallOutcome → Bool
  | CallOutcome.raises _ => true
  | CallOutcome.returns t => t == ""

/-- The characters of the substring used to classify rate-limit errors
(src/main.py line 72: if a 429 marker occurs in the message). -/
def rate429 : List Char := ['4', '2', '9']

/-- Observable trace of one run of generate_with_fallback: the returned
value (some text or none), the models invoked in order, and the sleep
pauses performed in order (src/main.py lines 62 to 74). -/
structure GenTrace where
  result : Option String
  attempts : List String
  sleeps : List Nat
deriving DecidableEq, Repr

/-- src/main.py lines 62 to 74: try each model in order; on a returned
truthy (non-empty) text return it stripped; on a returned empty text go
on to the next model; on a raised error sleep 2 when the message
contains the 429 marker and go on to the next model; return None when
the list is exhausted. -/
def generate_with_fallback (behavior : String → String → CallOutcome)
    (prompt : String) : List String → GenTrace
  | [] => ⟨none, [], []⟩
  | m :: ms =>
    match behavior m prompt with
    | CallOutcome.returns t =>
      if t = "" then
        let r := generate_with_fallback behavior prompt ms
        ⟨r.result, m :: r.attempts, r.sleeps⟩
      else
        ⟨some (pyStrip t), [m], []⟩
    | CallOutcome.raises msg =>
      let r := generate_with_fallback behavior prompt ms
      if hasSub rate429 msg.toList then
        ⟨r.result, m :: r.attempts, 2 :: r.sleeps⟩
      else
        ⟨r.result, m :: r.attempts, r.sleeps⟩

/-- One descriptor from the model listing call (name and
supported_actions attributes used at src/main.py lines 51 to 52). -/
structure ModelDesc where
  name : String
  supported_actions : List String
deriving DecidableEq, Repr

/-- Outcome of the client.models.list call: a raised exception or a
list of descriptors. -/
inductive ListingResult where
  | raises (msg : String)
  | returns (descs : List ModelDesc)
deriving DecidableEq, Repr

/-- Python str.lower on the characters of a string (ASCII letters,
which is what model names contain). -/
def lowerStr (s : String) : String :=
  String.mk (s.toList.map Char.toLower)

/-- Insert a string into a descending-sorted list, keeping it sorted
descending by the string order. -/
def insertDesc (s : String) : List String → List String
  | [] => [s]
  | t :: ts => if s ≥ t then s :: t :: ts else t :: insertDesc s ts

/-- Python list.sort(reverse=True) on strings: sort descending by the
lexicographic string order (src/main.py line 54). -/
def sortDesc (l : List String) : List String :=
  l.foldr insertDesc []

/-- Filter of src/main.py line 52: the lowercased name contains the
family tag and supported_actions contains generateContent. -/
def isFlashGen (m : ModelDesc) : Bool :=
  hasSub ("flash".toList) ((lowerStr m.name).toList)
    && m.supported_actions.contains "generateContent"

/-- Fallback list returned when the listing call raises
(src/main.py line 58). -/
def fallback_models_error : List String :=
  ["models/gemini-2.5-flash", "models/gemini-2.0-flash"]

/-- Fallback list returned when the filtered listing is empty
(src/main.py line 55). -/
def fallback_models_empty : List String :=
  ["models/gemini-2.0-flash"]

/-- src/main.py lines 46 to 58: keep the names of the descriptors that
pass the flash and generateContent filter, sort them descending, return
them when non-empty, the one-element static list when empty, and the
two-element static list when the listing call raised. -/
def get_available_flash_models (listing : ListingResult) : List String :=
  match listing with
  | ListingResult.raises _ => fallback_models_error
  | ListingResult.returns ds =>
    let models := sortDesc ((ds.filter isFlashGen).map ModelDesc.name)
    if models = [] then fallback_models_empty else models

/-- The filtered and sorted model list computed from a listing
(the local variable models of src/main.py lines 49 to 54). -/
def filteredModels (ds : List ModelDesc) : List String :=
  sortDesc ((ds.filter isFlashGen).map ModelDesc.name)

/-- One feed entry (title, link, summary, description attributes used
at src/main.py lines 102 to 115). A missing attribute is the empty
string, matching entry.get(key, empty) in the source. -/
structure Entry where
  title : String
  link : String
  summary : String
  description : String
deriving DecidableEq, Repr

/-- The sentinel placeholder of src/main.py line 110, used for a
position with no corresponding AI segment. -/
def sentinel : String := "（内容の解析に失敗しちゃった）"

/-- src/main.py line 106: split the AI response on the delimiter, strip
each part, keep the non-empty ones; an absent response yields the empty
list. -/
def splitSummaries : Option String → List String
  | none => []
  | some r => ((r.splitOn "###").map pyStrip).filter (fun s => s ≠ "")

/-- Anchored match of the regex of src/main.py line 111 (item-number
label: the two label characters, one or more digits, an ASCII or
full-width colon, then optional whitespace). Returns the remainder
after the matched part when the string starts with the pattern, and
none otherwise. -/
def matchItemLabel (cs : List Char) : Option (List Char) :=
  match cs with
  | '記' :: '事' :: rest =>
    if rest.takeWhile isDigitChar = [] then none
    else
      match rest.dropWhile isDigitChar with
      | c :: rest2 =>
        if c = ':' ∨ c = '：' then some (rest2.dropWhile isSpaceChar)
        else none
      | [] => none
  | _ => none

/-- src/main.py line 111 on a character list: re.sub of the anchored
item-label pattern with the empty replacement, which removes the label
when the string starts with it and is the identity otherwise. -/
def stripItemLabelList (cs : List Char) : List Char :=
  (matchItemLabel cs).getD cs

/-- Whether a character list starts with the item-number label pattern. -/
def beginsWithItemLabel (cs : List Char) : Bool :=
  (matchItemLabel cs).isSome

/-- src/main.py line 111 on strings. -/
def stripItemLabel (s : String) : String :=
  String.mk (stripItemLabelList s.toList)

/-- The loop of src/main.py lines 109 to 116, carrying the running
index i: each entry is paired with its cleaned summary, where the
summary is segment i when it exists and the sentinel otherwise. -/
def alignedBlocksAux (summaries : List String) : Nat → List Entry → List (Entry × String)
  | _, [] => []
  | i, e :: es =>
    (e, stripItemLabel (summaries.getD i sentinel)) :: alignedBlocksAux summaries (i + 1) es

/-- The alignment core of src/main.py lines 106 to 116: one block per
selected entry, in order, pairing the entry with its cleaned summary
text. -/
def alignedBlocks (selected : List Entry) (ai_res : Option String) : List (Entry × String) :=
  alignedBlocksAux (splitSummaries ai_res) 0 selected

/-- src/main.py lines 113 to 116: the formatted text block of one
aligned pair. -/
def formatBlock (b : Entry × String) : String :=
  "🔹 **[" ++ b.1.title ++ "](" ++ b.1.link ++ ")**\n> " ++ (b.2.replace "\n" "\n> ")

/-- The formatted block list of src/main.py lines 108 to 116. -/
def formattedBlocks (selected : List Entry) (ai_res : Option String) : List String :=
  (alignedBlocks selected ai_res).map formatBlock

/-- The fixed status string returned for an empty aggregated feed list
(src/main.py line 88). -/
def noNewsMsg : String := "新しい情報はないみたい。"

/-- src/main.py line 102: the body excerpt of one entry, the summary
attribute when truthy else the description, truncated to 300
characters. -/
def entryDesc (e : Entry) : String :=
  String.mk ((if e.summary ≠ "" then e.summary else e.description).toList.take 300)

/-- The fixed head of the summarization prompt of src/main.py lines
92 to 100, parameterized by the configured system prompt. -/
def newsPromptHeader (sysPrompt : String) : String :=
  "\n    " ++ sysPrompt ++
  "\n\n    【重要ルール】\n    ・自己紹介や前置きは一切不要です。要約のみ出力してください。\n    ・各記事の要約は、必ず \x27###\x27 で区切って出力してください。\n\n    【対象記事】\n    "

/-- src/main.py lines 101 to 103: append one tagged line per selected
entry to the prompt. -/
def newsPrompt (sysPrompt : String) (selected : List Entry) : String :=
  selected.enum.foldl
    (fun acc p =>
      acc ++ "\n記事" ++ toString (p.1 + 1) ++ ": " ++ p.2.title ++ "\n内容: " ++ entryDesc p.2 ++ "\n")
    (newsPromptHeader sysPrompt)

/-- src/main.py lines 81 to 85: aggregate the first ten entries of each
feed with a non-empty entry list. -/
def aggregate_entries (feeds : List (List Entry)) : List Entry :=
  feeds.foldl (fun acc f => if f = [] then acc else acc ++ f.take 10) []

/-- Result of one run of fetch_summarized_news: the returned string and
the number of generate_with_fallback invocations made. -/
structure NewsResult where
  output : String
  genCalls : Nat
deriving DecidableEq, Repr

/-- src/main.py lines 79 to 118: aggregate the feeds; when the
aggregate is empty return the fixed status string with no generation
call; otherwise sample min(count, len) entries, build the prompt, make
the single generation call and join the formatted aligned blocks.
The random.sample call is an oracle parameter. -/
def fetch_summarized_news (sysPrompt : String) (behavior : String → String → CallOutcome)
    (models : List String) (sample : List Entry → Nat → List Entry)
    (feeds : List (List Entry)) (count : Nat) : NewsResult :=
  let all_entries := aggregate_entries feeds
  if all_entries = [] then ⟨noNewsMsg, 0⟩
  else
    let selected := sample all_entries (min count all_entries.length)
    let prompt := newsPrompt sysPrompt selected
    let ai_res := (generate_with_fallback behavior prompt models).result
    ⟨String.intercalate "\n\n" (formattedBlocks selected ai_res), 1⟩

/-- One YouTube candidate row (id and title of src/main.py line 151). -/
structure Cand where
  id : String
  title : String
deriving DecidableEq, Repr

/-- Helper of the digit-run scanner: accumulate the current run
(in reversed order) while walking the characters. -/
def digitRunsAux : List Char → List Char → List (List Char)
  | [], cur => if cur = [] then [] else [cur.reverse]
  | c :: rest, cur =>
    if isDigitChar c then digitRunsAux rest (c :: cur)
    else if cur = [] then digitRunsAux rest [] else cur.reverse :: digitRunsAux rest []

/-- Python re.findall of the digit-run pattern at src/main.py line 157:
the maximal runs of decimal digits, in order. -/
def digitRuns (cs : List Char) : List (List Char) :=
  digitRunsAux cs []

/-- Python int on a run of decimal digits. -/
def digitsToNat (cs : List Char) : Nat :=
  cs.foldl (fun acc c => acc * 10 + (c.toNat - '0'.toNat)) 0

/-- src/main.py line 157: the parsed index list. For a truthy response,
each digit run parsed as an integer minus one; for an absent or empty
(falsy) response, range(count). -/
def parseIndices (ai_res : Option String) (count : Nat) : List Int :=
  match ai_res with
  | some s =>
    if s = "" then (List.range count).map Int.ofNat
    else (digitRuns s.toList).map (fun run => (digitsToNat run : Int) - 1)
  | none => (List.range count).map Int.ofNat

/-- The loop of src/main.py lines 159 to 163 at the candidate level:
keep, in emitted order, the candidate at each parsed index that lies in
range, and drop the out-of-range indices. -/
def selectedCandidates (candidates : List Cand) (indices : List Int) : List Cand :=
  indices.filterMap (fun idx =>
    if h : 0 ≤ idx ∧ idx.toNat < candidates.length then
      some (candidates.get ⟨idx.toNat, h.2⟩)
    else none)

/-- src/main.py line 163: the formatted line of one selected candidate. -/
def formatVideo (c : Cand) : String :=
  "🔹 **[" ++ c.title ++ "](https://www.youtube.com/watch?v=" ++ c.id ++ ")**"

/-- The message returned when no candidate survives the selection
(src/main.py line 165). -/
def nothingMsg : String := "選別で何も残らなかったよ。"

/-- src/main.py lines 155 to 165 after the AI call: parse the indices,
project them onto the candidates, format, and return the joined first
count lines, or the fixed message when nothing survived. -/
def get_ai_filtered_core (candidates : List Cand) (ai_res : Option String) (count : Nat) : String :=
  let videos := (selectedCandidates candidates (parseIndices ai_res count)).map formatVideo
  if videos = [] then nothingMsg
  else String.intercalate "\n" (videos.take count)

/-- Concrete entry used by witnesses. -/
def entryA : Entry := ⟨"T1", "https://e.example/1", "S1", "D1"⟩

/-- Concrete candidates used by the selection counterexample. -/
def cA : Cand := ⟨"ida", "A"⟩

def cB : Cand := ⟨"idb", "B"⟩

def cC : Cand := ⟨"idc", "C"⟩

def cD : Cand := ⟨"idd", "D"⟩

def cE : Cand := ⟨"ide", "E"⟩

/-- Concrete backend where the first model returns whitespace-only text
and the second returns useful text. -/
def behavWs : String → String → CallOutcome :=
  fun m _ => if m = "m1" then CallOutcome.returns " " else CallOutcome.returns "hello"

/-- Concrete backend where the first model raises and the second
returns useful text with surrounding whitespace. -/
def bSucc : String → String → CallOutcome :=
  fun m _ => if m = "m1" then CallOutcome.raises "boom" else CallOutcome.returns " hello "

/-- Concrete backend where the first model raises a rate-limit error. -/
def b429 : String → String → CallOutcome :=
  fun m _ =>
    if m = "m1" then CallOutcome.raises "HTTP 429 quota exceeded"
    else CallOutcome.returns "txt"

/-- Identity sampling oracle used by witnesses. -/
def sampleId : List Entry → Nat → List Entry := fun l _ => l

/-- Helper: the attempt list of a run is an initial segment of the
model list. -/
theorem attempts_initial_segment (behavior : String → String → CallOutcome) (prompt : String) :
    ∀ models : List String,
      ∃ rest, (generate_with_fallback behavior prompt models).attempts ++ rest = models := by
  intro models
  induction models with
  | nil => exact ⟨[], rfl⟩
  | cons m ms ih =>
    obtain ⟨rest, hr⟩ := ih
    cases hcall : behavior m prompt with
    | returns t =>
      by_cases ht : t = ""
      · exact ⟨rest, by simp [generate_with_fallback, hcall, ht, hr]⟩
      · exact ⟨ms, by simp [generate_with_fallback, hcall, ht]⟩
    | raises msg =>
      by_cases h429 : hasSub rate429 msg.data = true
      · exact ⟨rest, by simp [generate_with_fallback, hcall, h429, hr]⟩
      · exact ⟨rest, by simp [generate_with_fallback, hcall, h429, hr]⟩

/-- Claim C2: when every model in the ranked list either raises or
yields an empty result, generate_with_fallback attempts each of the
models exactly once, in list order, and returns none. -/
theorem generate_exhaustion (behavior : String → String → CallOutcome) (prompt : String)
    (models : List String)
    (h : ∀ m ∈ models, isFailure (behavior m prompt) = true) :
    (generate_with_fallback behavior prompt models).result = none
    ∧ (generate_with_fallback behavior prompt models).attempts = models := by
  induction models with
  | nil => exact ⟨rfl, rfl⟩
  | cons m ms ih =>
    have hm : isFailure (behavior m prompt) = true := h m (by simp)
    have hms : ∀ x ∈ ms, isFailure (behavior x prompt) = true :=
      fun x hx => h x (by simp [hx])
    obtain ⟨ih1, ih2⟩ := ih hms
    cases hcall : behavior m prompt with
    | raises msg =>
      by_cases h429 : hasSub rate429 msg.data = true
      · simp [generate_with_fallback, hcall, h429, ih1, ih2]
      · simp [generate_with_fallback, hcall, h429, ih1, ih2]
    | returns t =>
      have ht : t = "" := by simpa [isFailure, hcall] using hm
      simp [generate_with_fallback, hcall, ht, ih1, ih2]

/-- Witness for C2 at a concrete backend that raises for every model. -/
theorem generate_exhaustion_witness :
    (generate_with_fallback (fun _ _ => CallOutcome.raises "boom") "p" ["m1", "m2"]).result = none
    ∧ (generate_with_fallback (fun _ _ => CallOutcome.raises "boom") "p" ["m1", "m2"]).attempts
        = ["m1", "m2"] :=
  generate_exhaustion (fun _ _ => CallOutcome.raises "boom") "p" ["m1", "m2"] (by decide)

/-- Counterexample to claim C3 as stated: with the first model
returning whitespace-only text and the second model returning useful
text, the code returns the stripped empty string at the first model and
never invokes the second, whereas the claim demands that whitespace-only
text not count as success and that the text of the second model be
returned. -/
theorem generate_first_success_cex :
    (generate_with_fallback behavWs "p" ["m1", "m2"]).result = some ""
    ∧ (generate_with_fallback behavWs "p" ["m1", "m2"]).attempts = ["m1"]
    ∧ some "" ≠ some (pyStrip "hello") := by
  refine ⟨by decide, by decide, by decide⟩

/-- Claim C3 (amended): when every model before position j raises or
yields empty text and model j yields non-empty raw text t, the run
returns pyStrip t (which may itself be empty when t is whitespace-only)
immediately, and the models after j are never invoked. -/
theorem generate_first_success (behavior : String → String → CallOutcome) (prompt : String)
    (pre post : List String) (m : String) (t : String)
    (hpre : ∀ p ∈ pre, isFailure (behavior p prompt) = true)
    (hm : behavior m prompt = CallOutcome.returns t) (ht : t ≠ "") :
    (generate_with_fallback behavior prompt (pre ++ m :: post)).result = some (pyStrip t)
    ∧ (generate_with_fallback behavior prompt (pre ++ m :: post)).attempts = pre ++ [m] := by
  induction pre with
  | nil => simp [generate_with_fallback, hm, ht]
  | cons p ps ih =>
    have hp : isFailure (behavior p prompt) = true := hpre p (by simp)
    have hps : ∀ x ∈ ps, isFailure (behavior x prompt) = true :=
      fun x hx => hpre x (by simp [hx])
    obtain ⟨ih1, ih2⟩ := ih hps
    cases hcall : behavior p prompt with
    | raises msg =>
      by_cases h429 : hasSub rate429 msg.data = true
      · simp [generate_with_fallback, hcall, h429, ih1, ih2]
      · simp [generate_with_fallback, hcall, h429, ih1, ih2]
    | returns u =>
      have hu : u = "" := by simpa [isFailure, hcall] using hp
      simp [generate_with_fallback, hcall, hu, ih1, ih2]

/-- Witness for the amended C3: first model raises, second model
returns padded text, third model exists but is never invoked. -/
theorem generate_first_success_witness :
    (generate_with_fallback bSucc "p" ["m1", "m2", "m3"]).result = some (pyStrip " hello ")
    ∧ (generate_with_fallback bSucc "p" ["m1", "m2", "m3"]).attempts = ["m1", "m2"] := by
  have h := generate_first_success bSucc "p" ["m1"] ["m3"] "m2" " hello "
    (by decide) (by decide) (by decide)
  simpa using h

/-- Claim C4: a model whose call raises a rate-limited error (the
message contains the 429 marker) contributes one sleep of 2 time units
and the run then proceeds with the rest of the list, never retrying the
model; moreover the attempt list of any run is an initial segment of
the model list, so a model list without duplicates is attempted without
duplicates (each model at most once, for every error type). -/
theorem generate_rate_limit_next (behavior : String → String → CallOutcome) (prompt : String)
    (m : String) (ms : List String) (msg : String)
    (h1 : behavior m prompt = CallOutcome.raises msg)
    (h2 : hasSub rate429 msg.toList = true) :
    generate_with_fallback behavior prompt (m :: ms) =
      ⟨(generate_with_fallback behavior prompt ms).result,
       m :: (generate_with_fallback behavior prompt ms).attempts,
       2 :: (generate_with_fallback behavior prompt ms).sleeps⟩
    ∧ (∀ models : List String,
        ∃ rest, (generate_with_fallback behavior prompt models).attempts ++ rest = models)
    ∧ (∀ models : List String, models.Nodup →
        ((generate_with_fallback behavior prompt models).attempts).Nodup) := by
  have h2d : hasSub rate429 msg.data = true := h2
  refine ⟨by simp [generate_with_fallback, h1, h2d], attempts_initial_segment behavior prompt, ?_⟩
  intro models hnd
  obtain ⟨rest, hr⟩ := attempts_initial_segment behavior prompt models
  exact List.Nodup.of_append_left (hr ▸ hnd)

/-- Witness for C4 at a concrete rate-limited backend. -/
theorem generate_rate_limit_next_witness :
    generate_with_fallback b429 "p" ["m1", "m2"] =
      ⟨(generate_with_fallback b429 "p" ["m2"]).result,
       "m1" :: (generate_with_fallback b429 "p" ["m2"]).attempts,
       2 :: (generate_with_fallback b429 "p" ["m2"]).sleeps⟩ :=
  (generate_rate_limit_next b429 "p" "m1" ["m2"] "HTTP 429 quota exceeded"
    (by decide) (by decide)).1

/-- Claim C9 (amended): stripping the item-number label from a segment
that does not begin with one leaves the segment unchanged; consequently
the cleanup applied twice equals the cleanup applied once on every
segment whose once-stripped form does not itself begin with the label
(the unconditional idempotence of the original claim fails, see the
counterexample). -/
theorem retrim_noop :
    (∀ s : String, beginsWithItemLabel s.toList = false → stripItemLabel s = s)
    ∧ (∀ s : String, beginsWithItemLabel (stripItemLabel s).toList = false →
        stripItemLabel (stripItemLabel s) = stripItemLabel s) := by
  have base : ∀ s : String, beginsWithItemLabel s.toList = false → stripItemLabel s = s := by
    intro s h
    have hm : matchItemLabel s.toList = none := by
      cases hm : matchItemLabel s.toList with
      | none => rfl
      | some r => rw [beginsWithItemLabel, hm] at h; simp at h
    cases s with
    | mk data =>
      have hm2 : matchItemLabel data = none := hm
      show String.mk ((matchItemLabel data).getD data) = String.mk data
      rw [hm2]
      rfl
  exact ⟨base, fun s h => base (stripItemLabel s) h⟩

/-- Witness for C9 (amended) on a concrete label-free segment. -/
theorem retrim_noop_witness :
    stripItemLabel "hello world" = "hello world" :=
  retrim_noop.1 "hello world" (by decide)

/-- Counterexample to the unconditional idempotence of claim C9: on a
segment carrying two stacked item-number labels, stripping twice
removes both and differs from stripping once. -/
theorem retrim_idempotence_cex :
    stripItemLabel (stripItemLabel "記事1:記事2:x") ≠ stripItemLabel "記事1:記事2:x" := by
  decide

/-- Helper: the aligned block list has the length of the entry list. -/
theorem alignedBlocksAux_length (ss : List String) :
    ∀ (i : Nat) (l : List Entry), (alignedBlocksAux ss i l).length = l.length := by
  intro i l
  induction l generalizing i with
  | nil => rfl
  | cons e es ih => simp [alignedBlocksAux, ih]

/-- Helper: the j-th aligned block pairs the j-th entry with the
cleaned summary at offset i + j. -/
theorem alignedBlocksAux_get (ss : List String) :
    ∀ (l : List Entry) (i j : Nat) (h : j < l.length)
      (h2 : j < (alignedBlocksAux ss i l).length),
      (alignedBlocksAux ss i l).get ⟨j, h2⟩ =
        (l.get ⟨j, h⟩, stripItemLabel (ss.getD (i + j) sentinel)) := by
  intro l
  induction l with
  | nil => intro i j h h2; simp at h
  | cons e es ih =>
    intro i j h h2
    cases j with
    | zero => simp [alignedBlocksAux]
    | succ k =>
      have hk : k < es.length := by simpa using h
      have hk2 : k < (alignedBlocksAux ss (i + 1) es).length := by
        rw [alignedBlocksAux_length]; exact hk
      have hstep := ih (i + 1) k hk hk2
      have harith : i + 1 + k = i + (k + 1) := by omega
      rw [harith] at hstep
      simpa [alignedBlocksAux] using hstep

/-- Helper: cleaning the sentinel placeholder leaves it unchanged. -/
theorem stripItemLabel_sentinel : stripItemLabel sentinel = sentinel := by decide

/-- Claim C1: for every non-empty entry list and every AI response
(absent included), the aligner produces exactly one block per entry, in
input order, the j-th block pairing the j-th entry with the cleanup of
segment j, and every position at or beyond the segment count receives
the sentinel placeholder. -/
theorem positional_alignment (selected : List Entry) (_hne : selected ≠ [])
    (ai : Option String) :
    (alignedBlocks selected ai).length = selected.length
    ∧ (∀ (j : Nat) (h : j < selected.length) (h2 : j < (alignedBlocks selected ai).length),
        (alignedBlocks selected ai).get ⟨j, h2⟩ =
          (selected.get ⟨j, h⟩, stripItemLabel ((splitSummaries ai).getD j sentinel)))
    ∧ (∀ (j : Nat) (h2 : j < (alignedBlocks selected ai).length),
        (splitSummaries ai).length ≤ j →
          ((alignedBlocks selected ai).get ⟨j, h2⟩).2 = sentinel) := by
  refine ⟨alignedBlocksAux_length _ 0 _, ?_, ?_⟩
  · intro j h h2
    have hg := alignedBlocksAux_get (splitSummaries ai) selected 0 j h h2
    simpa using hg
  · intro j h2 hk
    have hlen : (alignedBlocks selected ai).length = selected.length :=
      alignedBlocksAux_length (splitSummaries ai) 0 selected
    have h : j < selected.length := by omega
    have hg : (alignedBlocks selected ai).get ⟨j, h2⟩ =
        (selected.get ⟨j, h⟩, stripItemLabel ((splitSummaries ai).getD (0 + j) sentinel)) :=
      alignedBlocksAux_get (splitSummaries ai) selected 0 j h h2
    rw [hg]
    have hnone : (splitSummaries ai)[j]? = none := List.getElem?_eq_none hk
    simp [List.getD_eq_getElem?_getD, hnone, stripItemLabel_sentinel]

/-- Bound used by the witness of C1. -/
theorem positional_alignment_bound : 0 < (alignedBlocks [entryA] none).length := by decide

/-- Witness for C1 at a one-entry list with an absent AI response:
exactly one block, pairing the entry with the sentinel. -/
theorem positional_alignment_witness :
    (alignedBlocks [entryA] none).length = [entryA].length
    ∧ (alignedBlocks [entryA] none).get ⟨0, positional_alignment_bound⟩
        = (entryA, sentinel) := by
  have h := positional_alignment [entryA] (by simp) none
  exact ⟨h.1, (h.2.1 0 (by decide) positional_alignment_bound).trans (by decide)⟩

/-- Counterexample to claim C8 as stated: on an empty (or fully
filtered-out) listing result the registry returns the one-element
static list, not a two-element list. -/
theorem registry_empty_cex :
    get_available_flash_models (ListingResult.returns []) = ["models/gemini-2.0-flash"]
    ∧ (get_available_flash_models (ListingResult.returns [])).length ≠ 2 := by
  exact ⟨by decide, by decide⟩

/-- Claim C8 (amended): when the listing call raises, discovery returns
the hardcoded two-element fallback list; when the listing succeeds but
the filtered and sorted result is empty, it returns the hardcoded
one-element fallback list; in every case it returns a non-empty list
and never raises (it is a total function). -/
theorem registry_recovery (listing : ListingResult) :
    (∀ msg, listing = ListingResult.raises msg →
      get_available_flash_models listing = fallback_models_error)
    ∧ (∀ ds, listing = ListingResult.returns ds → filteredModels ds = [] →
      get_available_flash_models listing = fallback_models_empty)
    ∧ get_available_flash_models listing ≠ [] := by
  refine ⟨?_, ?_, ?_⟩
  · intro msg h; subst h; rfl
  · intro ds h hf
    subst h
    show (if filteredModels ds = [] then fallback_models_empty else filteredModels ds)
        = fallback_models_empty
    rw [if_pos hf]
  · cases listing with
    | raises msg => simp [get_available_flash_models, fallback_models_error]
    | returns ds =>
      show (if filteredModels ds = [] then fallback_models_empty else filteredModels ds) ≠ []
      by_cases hf : filteredModels ds = []
      · rw [if_pos hf]; simp [fallback_models_empty]
      · rw [if_neg hf]; exact hf

/-- Witness for the amended C8 at a concrete raised listing error. -/
theorem registry_recovery_witness :
    get_available_flash_models (ListingResult.raises "network down") = fallback_models_error
    ∧ get_available_flash_models (ListingResult.raises "network down") ≠ [] := by
  have h := registry_recovery (ListingResult.raises "network down")
  exact ⟨h.1 "network down" rfl, h.2.2⟩

/-- Helper: aggregating feeds that all have zero entries leaves any
accumulator unchanged. -/
theorem aggregate_foldl_nil :
    ∀ (feeds : List (List Entry)), (∀ f ∈ feeds, f = []) →
      ∀ acc, feeds.foldl (fun acc f => if f = [] then acc else acc ++ f.take 10) acc = acc := by
  intro feeds
  induction feeds with
  | nil => intro _ acc; rfl
  | cons f fs ih =>
    intro h acc
    have hf : f = [] := h f (by simp)
    have hfs : ∀ x ∈ fs, x = [] := fun x hx => h x (by simp [hx])
    simp only [List.foldl_cons, hf, if_pos rfl]
    exact ih hfs acc

/-- Claim C10: when every feed yields zero entries, the summarization
pipeline returns the fixed status string and performs no generation
call at all. -/
theorem empty_feed_short_circuit (sysPrompt : String)
    (behavior : String → String → CallOutcome) (models : List String)
    (sample : List Entry → Nat → List Entry) (feeds : List (List Entry)) (count : Nat)
    (h : ∀ f ∈ feeds, f = []) :
    (fetch_summarized_news sysPrompt behavior models sample feeds count).output = noNewsMsg
    ∧ (fetch_summarized_news sysPrompt behavior models sample feeds count).genCalls = 0 := by
  have ha : aggregate_entries feeds = [] := aggregate_foldl_nil feeds h []
  constructor <;> simp [fetch_summarized_news, ha]

/-- Witness for C10 at two concrete empty feeds. -/
theorem empty_feed_short_circuit_witness :
    (fetch_summarized_news "sys" bSucc ["m1"] sampleId [[], []] 5).output = noNewsMsg
    ∧ (fetch_summarized_news "sys" bSucc ["m1"] sampleId [[], []] 5).genCalls = 0 :=
  empty_feed_short_circuit "sys" bSucc ["m1"] sampleId [[], []] 5 (by decide)

/-- Helper: the selection loop on a cons index list. -/
theorem selectedCandidates_cons (candidates : List Cand) (idx : Int) (rest : List Int) :
    selectedCandidates candidates (idx :: rest) =
      (if h : 0 ≤ idx ∧ idx.toNat < candidates.length then
        [candidates.get ⟨idx.toNat, h.2⟩] else [])
      ++ selectedCandidates candidates rest := by
  by_cases h : 0 ≤ idx ∧ idx.toNat < candidates.length
  · simp [selectedCandidates, List.filterMap_cons, h]
  · simp [selectedCandidates, List.filterMap_cons, h]

/-- Helper: the selection loop on range indices returns the first n
candidates in original order. -/
theorem selectedCandidates_range (candidates : List Cand) :
    ∀ n : Nat, selectedCandidates candidates ((List.range n).map Int.ofNat)
      = candidates.take n := by
  intro n
  induction n with
  | zero => rfl
  | succ n ih =>
    have hsplit : selectedCandidates candidates ((List.range (n + 1)).map Int.ofNat)
        = selectedCandidates candidates ((List.range n).map Int.ofNat)
          ++ selectedCandidates candidates [Int.ofNat n] := by
      rw [List.range_succ, List.map_append]
      simp [selectedCandidates, List.filterMap_append]
    rw [hsplit, ih, List.take_succ]
    congr 1
    by_cases h : n < candidates.length
    · have hcond : (0 : Int) ≤ Int.ofNat n ∧ (Int.ofNat n).toNat < candidates.length :=
        ⟨Int.natCast_nonneg n, h⟩
      rw [selectedCandidates_cons, dif_pos hcond]
      simp [selectedCandidates, List.getElem?_eq_getElem h, List.get_eq_getElem]
    · have hcond : ¬((0 : Int) ≤ Int.ofNat n ∧ (Int.ofNat n).toNat < candidates.length) := by
        intro hc
        exact h hc.2
      rw [selectedCandidates_cons, dif_neg hcond]
      simp [selectedCandidates, List.getElem?_eq_none (Nat.le_of_not_lt h)]

/-- Claim C5: every item in the selection output comes from a parsed
index lying in the valid range of the candidate list, and the number of
returned items never exceeds the result cap. -/
theorem selection_range_safety (candidates : List Cand) (ai : Option String) (count : Nat) :
    (∀ c ∈ selectedCandidates candidates (parseIndices ai count),
      ∃ idx ∈ parseIndices ai count, ∃ hin : idx.toNat < candidates.length,
        0 ≤ idx ∧ c = candidates.get ⟨idx.toNat, hin⟩)
    ∧ ((selectedCandidates candidates (parseIndices ai count)).take count).length ≤ count := by
  constructor
  · intro c hc
    simp only [selectedCandidates, List.mem_filterMap] at hc
    obtain ⟨idx, hidx, hf⟩ := hc
    by_cases h : 0 ≤ idx ∧ idx.toNat < candidates.length
    · rw [dif_pos h] at hf
      exact ⟨idx, hidx, h.2, h.1, (Option.some.inj hf).symm⟩
    · rw [dif_neg h] at hf
      cases hf
  · rw [List.length_take]
    exact Nat.min_le_left _ _

/-- Counterexample to claim C6 as stated: for five distinct candidates
and the example response, the parsed index sequence is 1, 3, 1, 3
(0-based) and the code keeps every occurrence, so the output repeats
candidates and differs from the claimed two-element selection. -/
theorem selection_dedup_cex :
    selectedCandidates [cA, cB, cC, cD, cE]
        (parseIndices (some "I think 2 and 4 are right, pick 2, 4") 10)
      = [cB, cD, cB, cD]
    ∧ selectedCandidates [cA, cB, cC, cD, cE]
        (parseIndices (some "I think 2 and 4 are right, pick 2, 4") 10)
      ≠ [cB, cD]
    ∧ ¬ (selectedCandidates [cA, cB, cC, cD, cE]
        (parseIndices (some "I think 2 and 4 are right, pick 2, 4") 10)).Nodup := by
  refine ⟨by decide, by decide, by decide⟩

/-- Claim C6 (amended): duplicate parsed indices are kept, not
discarded: each occurrence of a valid index contributes one output
item, so for five candidates and the example response the selection is
candidates 1, 3, 1, 3 (0-based), every occurrence retained in emitted
order (the result cap of the caller then applies to this list). -/
theorem selection_duplicates_kept (c0 c1 c2 c3 c4 : Cand) :
    selectedCandidates [c0, c1, c2, c3, c4]
        (parseIndices (some "I think 2 and 4 are right, pick 2, 4") 10)
      = [c1, c3, c1, c3] := by
  have hidx : parseIndices (some "I think 2 and 4 are right, pick 2, 4") 10
      = [1, 3, 1, 3] := by decide
  rw [hidx]
  rw [selectedCandidates_cons, selectedCandidates_cons, selectedCandidates_cons,
    selectedCandidates_cons]
  norm_num [selectedCandidates]
  rfl

/-- Claim C7: when the AI response is absent the selection is the first
count candidates in their original order (and the returned string joins
exactly those, non-empty whenever candidates exist and the cap is
positive); when a non-empty response was received but no parsed index
is valid, the returned string is the harmless nothing-selected message,
not the identity fallback and not an error. -/
theorem selection_fallback (candidates : List Cand) (count : Nat) :
    selectedCandidates candidates (parseIndices none count) = candidates.take count
    ∧ (candidates ≠ [] → 0 < count →
        get_ai_filtered_core candidates none count
          = String.intercalate "\n" ((candidates.take count).map formatVideo))
    ∧ (candidates ≠ [] → 0 < count →
        selectedCandidates candidates (parseIndices none count) ≠ [])
    ∧ (∀ s : String, s ≠ "" →
        (∀ idx ∈ parseIndices (some s) count, ¬(0 ≤ idx ∧ idx.toNat < candidates.length)) →
        get_ai_filtered_core candidates (some s) count = nothingMsg) := by
  have h1 : selectedCandidates candidates (parseIndices none count) = candidates.take count :=
    selectedCandidates_range candidates count
  have htake : candidates ≠ [] → 0 < count → candidates.take count ≠ [] := by
    intro hc hcount
    cases candidates with
    | nil => exact absurd rfl hc
    | cons x xs =>
      cases count with
      | zero => omega
      | succ k => simp
  refine ⟨h1, ?_, ?_, ?_⟩
  · intro hc hcount
    have hmapne : (candidates.take count).map formatVideo ≠ [] := by
      simpa using htake hc hcount
    show (if ((selectedCandidates candidates (parseIndices none count)).map formatVideo) = []
        then nothingMsg
        else String.intercalate "\n"
          (((selectedCandidates candidates (parseIndices none count)).map formatVideo).take count))
      = String.intercalate "\n" ((candidates.take count).map formatVideo)
    rw [h1, if_neg hmapne]
    congr 1
    apply List.take_of_length_le
    rw [List.length_map, List.length_take]
    exact Nat.min_le_left _ _
  · intro hc hcount
    rw [h1]
    exact htake hc hcount
  · intro s hs hbad
    have hempty : selectedCandidates candidates (parseIndices (some s) count) = [] := by
      rw [selectedCandidates, List.filterMap_eq_nil_iff]
      intro idx hidx
      exact dif_neg (hbad idx hidx)
    show (if ((selectedCandidates candidates (parseIndices (some s) count)).map formatVideo) = []
        then nothingMsg
        else String.intercalate "\n"
          (((selectedCandidates candidates (parseIndices (some s) count)).map formatVideo).take count))
      = nothingMsg
    rw [hempty]
    simp

/-- Witness for C7: one candidate with an absent response gives the
identity fallback; one candidate with the out-of-range response gives
the nothing-selected message. -/
theorem selection_fallback_witness :
    selectedCandidates [cA] (parseIndices none 3) = [cA].take 3
    ∧ get_ai_filtered_core [cA] (some "7") 3 = nothingMsg := by
  have h := selection_fallback [cA] 3
  exact ⟨h.1, h.2.2.2 "7" (by decide) (by decide)⟩
